import Mathlib

/-!
Shallow embedding of `convertsvstopng.py` (tissue_slide_downloader).

The program is a single-slide pipeline: parse sample metadata out of the
slide path, scale the slide down by a fixed factor, build a list of
classification concepts from the path and a local CSV reference table, upload
the scaled image, and on success delete the scaled file and the derived
source file.  Python strings are modelled as lists of characters; the
external collaborators (the OpenSlide library, the PIL resize primitive and
the Clarifai endpoint) are modelled as black boxes exactly as the spec
prescribes: an openable-slide map, a symbolic image term, and a response
value supplied as a parameter.
-/

namespace ConvertSvsToPng

/-- Python strings are modelled as lists of characters. -/
abbrev Str := List Char

/-- Python `s.split(sep)` for a one-character separator `sep`: always returns
a non-empty list of (possibly empty) chunks; `"".split(sep) = [""]`. -/
def splitOnChar (sep : Char) : Str → List Str
  | [] => [[]]
  | c :: cs =>
    match splitOnChar sep cs with
    | [] => [[]]
    | t :: ts => if c = sep then [] :: t :: ts else (c :: t) :: ts

/-- Python `s.replace(a, b)` for one-character `a` and `b`. -/
def replaceChar (a b : Char) (s : Str) : Str :=
  s.map (fun c => if c = a then b else c)

/-- The `".png"` literal of line 186. -/
def pngExt : Str := ['.', 'p', 'n', 'g']

/-- The `".svs"` literal of line 130. -/
def svsExt : Str := ['.', 's', 'v', 's']

/-- Helper for `os.path.splitext`: scanning the reversed path, returns the
reversed candidate extension (the characters up to and including the last
dot of the path) together with the remaining reversed prefix, provided no
path separator occurs after that dot; `none` when the path has no dot after
its last separator (Python: `dotIndex > sepIndex`). -/
def extCandidateRev : Str → Option (Str × Str)
  | [] => none
  | c :: cs =>
    if c = '/' then none
    else if c = '.' then some ([c], cs)
    else (extCandidateRev cs).map (fun er => (c :: er.1, er.2))

/-- Helper for `os.path.splitext`: Python only accepts the candidate
extension when the basename has at least one non-dot character before the
last dot (leading dots of a basename never start an extension).  `rest` is
the reversed prefix of the path before the last dot. -/
def extOk (rest : Str) : Bool :=
  (rest.takeWhile (fun c => decide (c ≠ '/'))).any (fun c => decide (c ≠ '.'))

/-- Helper combining the two `os.path.splitext` checks on a candidate. -/
def splitExtCore (p : Str) (cand : Option (Str × Str)) : Str × Str :=
  match cand with
  | none => (p, [])
  | some er => if extOk er.2 then (er.2.reverse, er.1.reverse) else (p, [])

/-- `os.path.splitext` for POSIX paths: splits `p` into `(root, ext)` with
`root ++ ext = p`; the extension starts at the last dot of the basename,
unless every character of the basename before that dot is itself a dot. -/
def splitExt (p : Str) : Str × Str :=
  splitExtCore p (extCandidateRev p.reverse)

/-- Line 186: `new_slide_name = os.path.splitext(slide_path)[0] + ".png"`. -/
def outputPath (slide_path : Str) : Str :=
  (splitExt slide_path).1 ++ pngExt

/-- Line 130: `svs_img = os.path.splitext(img_location)[0] + ".svs"`. -/
def derivedSvsPath (img_location : Str) : Str :=
  (splitExt img_location).1 ++ svsExt

/-- The `sample_metadata` dictionary of lines 220-225. -/
structure SampleMetadata where
  general_cancer : Str
  gdc_id : Str
  tcga_full_id : Str
  tcga_id : Str
deriving DecidableEq

/-- Message standing for a Python `IndexError` raised by a list subscript. -/
def idxErrMsg : Str := ('I' :: "ndexError".toList)

/-- Lines 216-225: `split_vars = args.slide_path.split("/")`,
`tcga_full_id = split_vars[3].split(".")[0]`, `tcga = tcga_full_id.split("-")`,
and the `sample_metadata` dictionary reading `split_vars[1]`, `split_vars[2]`,
`tcga_full_id` and `tcga[0] + "-" + tcga[1] + "-" + tcga[2]`.
Python raises `IndexError` when the path has fewer than 4 slash-segments
(`split_vars[3]`) or when the full id has fewer than 3 hyphen parts
(`tcga[1]`, `tcga[2]`); when index 3 exists, indices 1 and 2 always exist,
so matching on all three segment indices at once raises in exactly the
same cases as the source. -/
def parseSampleMetadata (p : Str) : Except Str SampleMetadata :=
  match (splitOnChar '/' p).get? 1, (splitOnChar '/' p).get? 2,
        (splitOnChar '/' p).get? 3 with
  | some seg1, some seg2, some seg3 =>
    match (splitOnChar '-' ((splitOnChar '.' seg3).headD [])).get? 0,
          (splitOnChar '-' ((splitOnChar '.' seg3).headD [])).get? 1,
          (splitOnChar '-' ((splitOnChar '.' seg3).headD [])).get? 2 with
    | some t0, some t1, some t2 =>
      Except.ok
        { general_cancer := seg1
          gdc_id := seg2
          tcga_full_id := (splitOnChar '.' seg3).headD []
          tcga_id := t0 ++ '-' :: (t1 ++ '-' :: t2) }
    | _, _, _ => Except.error idxErrMsg
  | _, _, _ => Except.error idxErrMsg

/-- The dictionary returned by `get_project` (lines 46-51). -/
structure ProjectRec where
  primary_site : Str
  project_disease_type : Str
  project_name : Str
  tcga_cancer_type : Str
deriving DecidableEq

/-- Lines 46-51: scan the parsed rows of `tcga_metadata.csv` in order; the
first row whose field 8 equals `m` yields fields 1, 3, 4 and 7; with no
matching row the function returns `None`.  A row shorter than 9 fields makes
`row[8]` raise `IndexError` (modelled as `Except.error`); on a matching row
fields 1, 3, 4, 7 exist because field 8 does. -/
def get_project (table : List (List Str)) (m : Str) : Except Str (Option ProjectRec) :=
  match table with
  | [] => Except.ok none
  | row :: rest =>
    match row.get? 8 with
    | none => Except.error idxErrMsg
    | some key =>
      if key = m then
        match row.get? 1, row.get? 3, row.get? 4, row.get? 7 with
        | some ps, some dt, some pn, some ct =>
          Except.ok (some ⟨ps, dt, pn, ct⟩)
        | _, _, _, _ => Except.error idxErrMsg
      else get_project rest m

/-- A Clarifai concept: `resources_pb2.Concept(id=..., value=1.)`.  Every
concept in the source carries the float confidence `1.0`, modelled exactly
by the natural number `1`. -/
structure Concept where
  id : Str
  value : Nat
deriving DecidableEq

/-- Lines 82-90 applied to one token: truncate to the first 31 characters
when strictly longer than 31, then replace each space by an underscore. -/
def truncNorm (t : Str) : Str :=
  replaceChar ' ' '_' (if 31 < t.length then t.take 31 else t)

/-- Lines 73-92: the concepts list starts with the general-cancer label
(stored verbatim, line 73) and, when `get_project` found a row, appends one
truncated and normalized concept per semicolon token of the primary-site
field, then of the project-name field, then of the cancer-type field; the
disease-type field is never appended. -/
def buildConcepts (general_cancer : Str) (project : Option ProjectRec) : List Concept :=
  let concepts : List Concept := [⟨general_cancer, 1⟩]
  match project with
  | none => concepts
  | some p =>
    concepts
      ++ (splitOnChar ';' p.primary_site).map (fun t => ⟨truncNorm t, 1⟩)
      ++ (splitOnChar ';' p.project_name).map (fun t => ⟨truncNorm t, 1⟩)
      ++ (splitOnChar ';' p.tcga_cancer_type).map (fun t => ⟨truncNorm t, 1⟩)

/-- `status_code_pb2.SUCCESS` of the Clarifai status-code table. -/
def SUCCESS : Nat := 10000

/-- The remote response: a status code and the `status.details` string. -/
structure UploadResponse where
  code : Nat
  details : Str
deriving DecidableEq

/-- Message standing for a Python `FileNotFoundError`. -/
def fnfMsg : Str := ('F' :: "ileNotFoundError".toList)

/-- Line 127: the message of the exception raised on a failed upload,
`"Post inputs failed, status: " + post_inputs_response.status.details`. -/
def postFailMsg (details : Str) : Str :=
  ('P' :: "ost inputs failed, status: ".toList) ++ details

/-- `os.remove`: delete the path from the file system, raising
`FileNotFoundError` when it does not exist. -/
def osRemove (fs : List Str) (p : Str) : Except Str (List Str) :=
  if p ∈ fs then Except.ok (fs.filter (fun q => decide (q ≠ p))) else Except.error fnfMsg

/-- Observable outcome of one `send_image` call: the resulting file system,
the concepts list that was built, how many `PostInputs` calls were made, and
the exception terminating the call, if any. -/
structure SendTrace where
  files : List Str
  concepts : List Concept
  uploads : Nat
  error : Option Str
deriving DecidableEq

/-- Lines 104-131: one `PostInputs` call with the already-built concepts,
then the status check; on a non-success status the run raises with the
response details and deletes nothing; on success it removes the scaled file
and then the derived `.svs` file. -/
def finishUpload (fs : List Str) (img_location : Str) (concepts : List Concept)
    (resp : UploadResponse) : SendTrace :=
  if resp.code ≠ SUCCESS then
    ⟨fs, concepts, 1, some (postFailMsg resp.details)⟩
  else
    match osRemove fs img_location with
    | Except.error e => ⟨fs, concepts, 1, some e⟩
    | Except.ok fs1 =>
      match osRemove fs1 (derivedSvsPath img_location) with
      | Except.error e => ⟨fs1, concepts, 1, some e⟩
      | Except.ok fs2 => ⟨fs2, concepts, 1, none⟩

/-- Lines 54-131, `send_image(img_location, meta_data, metadata)`: read the
scaled image bytes (raising `FileNotFoundError` when the file is absent),
look the short id up in the reference table, build the concepts list, and
perform the upload and cleanup.  The parsed reference table and the remote
response are the two external inputs. -/
def send_image (fs : List Str) (img_location : Str) (meta_data : SampleMetadata)
    (table : List (List Str)) (resp : UploadResponse) : SendTrace :=
  if img_location ∈ fs then
    match get_project table meta_data.tcga_id with
    | Except.error e => ⟨fs, [], 0, some e⟩
    | Except.ok project =>
      finishUpload fs img_location (buildConcepts meta_data.general_cancer project) resp
  else ⟨fs, [], 0, some fnfMsg⟩

/-- Line 34: `SCALE_FACTOR = 25`. -/
def SCALE_FACTOR : Nat := 25

/-- An openable slide as exposed by the OpenSlide library: its level-0
width and height, plus the dimensions of any further pyramid levels.
OpenSlide guarantees `dimensions == level_dimensions[0]`, which holds here
by construction. -/
structure SlideData where
  width : Nat
  height : Nat
  extraLevels : List (Nat × Nat)
deriving DecidableEq

/-- `slide.dimensions` (line 155). -/
def SlideData.dimensions (s : SlideData) : Nat × Nat := (s.width, s.height)

/-- `slide.level_dimensions` (line 167). -/
def SlideData.level_dimensions (s : SlideData) : List (Nat × Nat) :=
  (s.width, s.height) :: s.extraLevels

/-- The resampling filter passed to `PIL.Image.resize` (line 180). -/
inductive ResampleFilter where
  | bilinear
  | nearest
deriving DecidableEq

/-- Symbolic pixel buffers: the level-`level` region of a slide read at an
origin and size (`slide.read_region`, line 167), a conversion to RGB
(line 172), or a resampled copy (line 180). -/
inductive Img where
  | region (slide : SlideData) (origin : Nat × Nat) (level : Nat) (size : Nat × Nat)
  | convertRGB (i : Img)
  | resize (i : Img) (size : Nat × Nat) (filter : ResampleFilter)
deriving DecidableEq

/-- The pixel dimensions of a symbolic image. -/
def Img.dims : Img → Nat × Nat
  | Img.region _ _ _ size => size
  | Img.convertRGB i => i.dims
  | Img.resize _ size _ => size

/-- Channel count: `read_region` yields RGBA (4 channels); `convert("RGB")`
yields 3; `resize` preserves the channel count. -/
def Img.channels : Img → Nat
  | Img.region _ _ _ _ => 4
  | Img.convertRGB _ => 3
  | Img.resize i _ _ => i.channels

/-- The two exception classes caught by lines 146-151: `openslide.OpenSlideError`
(malformed or unsupported file) and `FileNotFoundError` (missing file). -/
inductive LibErr where
  | openSlideError (msg : Str)
  | fileNotFoundError (msg : Str)
deriving DecidableEq

/-- The external world of one run: what `openslide.open_slide` would return
or raise for each path, and the set of existing files. -/
structure World where
  openResult : Str → Except LibErr SlideData
  files : List Str

/-- Lines 146-151: `try: slide = openslide.open_slide(...) except
OpenSlideError: slide = None except FileNotFoundError: slide = None` —
both library errors are swallowed into a null handle. -/
def tryOpenSlide (world : World) (p : Str) : Option SlideData :=
  match world.openResult p with
  | Except.ok s => some s
  | Except.error _ => none

/-- Message standing for the Python `AttributeError` raised by line 155
(`slide.dimensions`) when `slide` is `None`. -/
def attributeErrorMsg : Str :=
  ('A' :: "ttributeError: NoneType object has no attribute dimensions".toList)

/-- Lines 134-192, `slide_to_scaled_pil_image`: open the slide (null handle
on failure), take the level-0 dimensions, compute the scaled dimensions as
the floor of each dimension divided by `SCALE_FACTOR` (Python floors the
float quotient; on naturals this is floor division), read the full level-0
region, convert it to RGB, resize it bilinearly, and save it under the
source path with its extension replaced by `".png"`.  Returns the updated
file system, the new file name and the saved image; with a null handle the
attribute access of line 155 raises before anything is written. -/
def slide_to_scaled_pil_image (world : World) (slide_path : Str) :
    Except Str (List Str × Str × Img) :=
  match tryOpenSlide world slide_path with
  | none => Except.error attributeErrorMsg
  | some slide =>
    let large_w := slide.width
    let large_h := slide.height
    let new_w := large_w / SCALE_FACTOR
    let new_h := large_h / SCALE_FACTOR
    let whole := Img.region slide (0, 0) 0 (slide.level_dimensions.headD (0, 0))
    let img := Img.resize (Img.convertRGB whole) (new_w, new_h) ResampleFilter.bilinear
    let new_slide_name := outputPath slide_path
    Except.ok (List.insert new_slide_name world.files, new_slide_name, img)

/-- Observable outcome of one whole run of the script. -/
structure RunTrace where
  files : List Str
  concepts : List Concept
  uploads : Nat
  outPath : Option Str
  img : Option Img
  error : Option Str
deriving DecidableEq

/-- Lines 198-231, the `__main__` block: parse the sample metadata from the
slide path, scale the slide, and send the scaled image; an exception at any
stage terminates the run with the later stages never executed. -/
def runPipeline (world : World) (slide_path : Str) (table : List (List Str))
    (resp : UploadResponse) : RunTrace :=
  match parseSampleMetadata slide_path with
  | Except.error e => ⟨world.files, [], 0, none, none, some e⟩
  | Except.ok md =>
    match slide_to_scaled_pil_image world slide_path with
    | Except.error e => ⟨world.files, [], 0, none, none, some e⟩
    | Except.ok (fs1, out, img) =>
      let st := send_image fs1 out md table resp
      ⟨st.files, st.concepts, st.uploads, some out, some img, st.error⟩

lemma extCand_cons_eq (c : Char) (cs : Str) :
    extCandidateRev (c :: cs) =
      if c = '/' then none
      else if c = '.' then some ([c], cs)
      else (extCandidateRev cs).map (fun er => (c :: er.1, er.2)) := by
  simp only [extCandidateRev]

lemma extCand_split (r : Str) : ∀ e rest, extCandidateRev r = some (e, rest) →
    e ++ rest = r ∧ ∃ t, e = t ++ ['.'] ∧ ∀ c ∈ t, ¬ c = '.' := by
  induction r with
  | nil => intro e rest h; simp [extCandidateRev] at h
  | cons c cs ih =>
    intro e rest h
    rw [extCand_cons_eq] at h
    by_cases h1 : c = '/'
    · rw [if_pos h1] at h; exact absurd h (by simp)
    · rw [if_neg h1] at h
      by_cases h2 : c = '.'
      · rw [if_pos h2] at h
        injection h with h3
        injection h3 with he hr
        subst he
        subst hr
        subst h2
        exact ⟨rfl, [], rfl, by simp⟩
      · rw [if_neg h2] at h
        obtain ⟨⟨e1, r1⟩, hcs, hmk⟩ := Option.map_eq_some'.mp h
        dsimp only at hmk
        injection hmk with he hr
        subst he
        subst hr
        obtain ⟨hsum, t, ht, htd⟩ := ih e1 r1 hcs
        refine ⟨by rw [List.cons_append, hsum], c :: t, by rw [ht, List.cons_append], ?_⟩
        intro x hx
        rcases List.mem_cons.mp hx with hx | hx
        · rw [hx]; exact h2
        · exact htd x hx

lemma splitExt_append (p : Str) : (splitExt p).1 ++ (splitExt p).2 = p := by
  unfold splitExt splitExtCore
  rcases hc : extCandidateRev p.reverse with _ | ⟨e, rest⟩
  · simp
  · dsimp only
    by_cases hok : extOk rest = true
    · rw [if_pos hok]
      have h := (extCand_split _ _ _ hc).1
      calc rest.reverse ++ e.reverse = (e ++ rest).reverse := (List.reverse_append ..).symm
        _ = p.reverse.reverse := by rw [h]
        _ = p := List.reverse_reverse p
    · rw [if_neg hok]; simp

lemma splitExt_ext_shape (p : Str) :
    (splitExt p).2 = [] ∨ ∃ t, (splitExt p).2 = '.' :: t ∧ ∀ c ∈ t, ¬ c = '.' := by
  unfold splitExt splitExtCore
  rcases hc : extCandidateRev p.reverse with _ | ⟨e, rest⟩
  · left; rfl
  · dsimp only
    by_cases hok : extOk rest = true
    · rw [if_pos hok]
      right
      obtain ⟨_, t, ht, htd⟩ := extCand_split _ _ _ hc
      refine ⟨t.reverse, by rw [ht]; simp, ?_⟩
      intro c hc2
      exact htd c (List.mem_reverse.mp hc2)
    · rw [if_neg hok]; left; rfl

lemma extCand_png_rev (x : Str) :
    extCandidateRev (('g' : Char) :: 'n' :: 'p' :: '.' :: x) =
      some (['g', 'n', 'p', '.'], x) := by
  rw [extCand_cons_eq, if_neg (by decide), if_neg (by decide),
      extCand_cons_eq, if_neg (by decide), if_neg (by decide),
      extCand_cons_eq, if_neg (by decide), if_neg (by decide),
      extCand_cons_eq, if_neg (by decide), if_pos rfl]
  rfl

lemma splitExt_output (R : Str) :
    splitExt (R ++ pngExt) =
      if extOk R.reverse then (R, pngExt) else (R ++ pngExt, []) := by
  have hrev : (R ++ pngExt).reverse = ('g' : Char) :: 'n' :: 'p' :: '.' :: R.reverse := by
    rw [List.reverse_append]; rfl
  unfold splitExt splitExtCore
  rw [hrev, extCand_png_rev]
  dsimp only
  by_cases hok : extOk R.reverse = true
  · rw [if_pos hok, if_pos hok, List.reverse_reverse]; rfl
  · rw [if_neg hok, if_neg hok]

lemma splitExt_extOk (p : Str) :
    (splitExt p).2 ≠ [] → extOk ((splitExt p).1).reverse = true := by
  unfold splitExt splitExtCore
  rcases hc : extCandidateRev p.reverse with _ | ⟨e, rest⟩
  · intro hne; exact absurd rfl hne
  · dsimp only
    by_cases hok : extOk rest = true
    · rw [if_pos hok]
      intro _
      rw [List.reverse_reverse]
      exact hok
    · rw [if_neg hok]
      intro hne
      exact absurd rfl hne

/-- C10: the source file deleted on a successful upload is
`splitext(output)[0] + ".svs"` where the output path is
`splitext(slide_path)[0] + ".png"`; this round trip returns the original
slide path exactly when the original path has extension `".svs"`. -/
theorem c10_svs_roundtrip (p : Str) :
    derivedSvsPath (outputPath p) = p ↔ (splitExt p).2 = svsExt := by
  constructor
  · intro h
    by_contra hne
    have hRE := splitExt_append p
    unfold derivedSvsPath outputPath at h
    rw [splitExt_output ((splitExt p).1)] at h
    by_cases hok : extOk ((splitExt p).1).reverse = true
    · rw [if_pos hok] at h
      dsimp only at h
      have h2 : (splitExt p).1 ++ svsExt = (splitExt p).1 ++ (splitExt p).2 :=
        h.trans hRE.symm
      exact hne ((List.append_right_inj _).mp h2).symm
    · rw [if_neg hok] at h
      dsimp only at h
      have h2 : (splitExt p).1 ++ (pngExt ++ svsExt) =
          (splitExt p).1 ++ (splitExt p).2 := by
        rw [← List.append_assoc]
        exact h.trans hRE.symm
      have hE : (splitExt p).2 = pngExt ++ svsExt := ((List.append_right_inj _).mp h2).symm
      rcases splitExt_ext_shape p with h0 | ⟨t, ht, htd⟩
      · rw [h0] at hE
        exact absurd hE (by decide)
      · rw [ht] at hE
        have ht2 : t = ('p' : Char) :: 'n' :: 'g' :: '.' :: 's' :: 'v' :: 's' :: [] :=
          (List.cons.injEq .. ▸ hE).2
        exact absurd rfl (htd '.' (by rw [ht2]; decide))
  · intro h
    have hne : (splitExt p).2 ≠ [] := by rw [h]; decide
    have hok := splitExt_extOk p hne
    unfold derivedSvsPath outputPath
    rw [splitExt_output ((splitExt p).1), if_pos hok]
    dsimp only
    rw [← h]
    exact splitExt_append p

lemma parse_ok (p s1 s2 s3 t0 t1 t2 : Str)
    (h1 : (splitOnChar '/' p).get? 1 = some s1)
    (h2 : (splitOnChar '/' p).get? 2 = some s2)
    (h3 : (splitOnChar '/' p).get? 3 = some s3)
    (ht0 : (splitOnChar '-' ((splitOnChar '.' s3).headD [])).get? 0 = some t0)
    (ht1 : (splitOnChar '-' ((splitOnChar '.' s3).headD [])).get? 1 = some t1)
    (ht2 : (splitOnChar '-' ((splitOnChar '.' s3).headD [])).get? 2 = some t2) :
    parseSampleMetadata p =
      Except.ok ⟨s1, s2, (splitOnChar '.' s3).headD [], t0 ++ '-' :: (t1 ++ '-' :: t2)⟩ := by
  unfold parseSampleMetadata
  rw [h1, h2, h3]
  dsimp only
  rw [ht0, ht1, ht2]

lemma intercalate_three (a b c : Str) :
    List.intercalate ['-'] [a, b, c] = a ++ '-' :: (b ++ '-' :: c) := by
  simp [List.intercalate, List.intersperse]

lemma png_ne_svs (a b : Str) : a ++ pngExt ≠ b ++ svsExt := by
  intro h
  have h2 := congrArg List.reverse h
  rw [List.reverse_append, List.reverse_append] at h2
  have h3 : (('g' : Char) :: 'n' :: 'p' :: '.' :: a.reverse) =
      (('s' : Char) :: 'v' :: 's' :: '.' :: b.reverse) := h2
  injection h3 with h4 h5
  exact absurd h4 (by decide)

lemma finishUpload_concepts (fs : List Str) (img_location : Str) (c : List Concept)
    (resp : UploadResponse) : (finishUpload fs img_location c resp).concepts = c := by
  unfold finishUpload
  split
  · rfl
  · split
    · rfl
    · split
      · rfl
      · rfl

lemma finishUpload_uploads (fs : List Str) (img_location : Str) (c : List Concept)
    (resp : UploadResponse) : (finishUpload fs img_location c resp).uploads = 1 := by
  unfold finishUpload
  split
  · rfl
  · split
    · rfl
    · split
      · rfl
      · rfl

lemma send_image_ok {fs : List Str} {img_location : Str} {md : SampleMetadata}
    {table : List (List Str)} {resp : UploadResponse} {pr : Option ProjectRec}
    (hmem : img_location ∈ fs)
    (hproj : get_project table md.tcga_id = Except.ok pr) :
    send_image fs img_location md table resp =
      finishUpload fs img_location (buildConcepts md.general_cancer pr) resp := by
  unfold send_image
  rw [if_pos hmem, hproj]

lemma get_project_miss (table : List (List Str)) (m : Str)
    (hrows : ∀ row ∈ table, ∃ k, row.get? 8 = some k ∧ k ≠ m) :
    get_project table m = Except.ok none := by
  induction table with
  | nil => rfl
  | cons row rest ih =>
    obtain ⟨k, hk, hne⟩ := hrows row (List.mem_cons_self row rest)
    unfold get_project
    rw [hk]
    dsimp only
    rw [if_neg hne]
    exact ih (fun r hr => hrows r (List.mem_cons_of_mem row hr))

lemma scale_ok (world : World) (p : Str) (sd : SlideData)
    (hopen : world.openResult p = Except.ok sd) :
    slide_to_scaled_pil_image world p =
      Except.ok (List.insert (outputPath p) world.files, outputPath p,
        Img.resize (Img.convertRGB (Img.region sd (0, 0) 0 (sd.width, sd.height)))
          (sd.width / SCALE_FACTOR, sd.height / SCALE_FACTOR) ResampleFilter.bilinear) := by
  have hopen2 : tryOpenSlide world p = some sd := by
    unfold tryOpenSlide
    rw [hopen]
  unfold slide_to_scaled_pil_image
  rw [hopen2]
  rfl

lemma runPipeline_send (world : World) (p : Str) (md : SampleMetadata)
    (table : List (List Str)) (resp : UploadResponse) (fs1 : List Str) (out : Str) (img : Img)
    (hmd : parseSampleMetadata p = Except.ok md)
    (hscale : slide_to_scaled_pil_image world p = Except.ok (fs1, out, img)) :
    (runPipeline world p table resp).files = (send_image fs1 out md table resp).files ∧
    (runPipeline world p table resp).error = (send_image fs1 out md table resp).error ∧
    (runPipeline world p table resp).uploads = (send_image fs1 out md table resp).uploads ∧
    (runPipeline world p table resp).concepts = (send_image fs1 out md table resp).concepts := by
  unfold runPipeline
  rw [hmd, hscale]
  exact ⟨rfl, rfl, rfl, rfl⟩

lemma finishUpload_success (fs : List Str) (img_location : Str) (c : List Concept)
    (resp : UploadResponse)
    (hresp : resp.code = SUCCESS)
    (hmem : img_location ∈ fs)
    (hsvs : derivedSvsPath img_location ∈ fs)
    (hne : derivedSvsPath img_location ≠ img_location) :
    (finishUpload fs img_location c resp).error = none ∧
    img_location ∉ (finishUpload fs img_location c resp).files ∧
    derivedSvsPath img_location ∉ (finishUpload fs img_location c resp).files := by
  have h1 : osRemove fs img_location =
      Except.ok (fs.filter (fun q => decide (q ≠ img_location))) := by
    unfold osRemove
    rw [if_pos hmem]
  have hmem2 : derivedSvsPath img_location ∈
      fs.filter (fun q => decide (q ≠ img_location)) :=
    List.mem_filter.mpr ⟨hsvs, decide_eq_true hne⟩
  have h2 : osRemove (fs.filter (fun q => decide (q ≠ img_location)))
      (derivedSvsPath img_location) =
      Except.ok ((fs.filter (fun q => decide (q ≠ img_location))).filter
        (fun q => decide (q ≠ derivedSvsPath img_location))) := by
    unfold osRemove
    rw [if_pos hmem2]
  unfold finishUpload
  rw [if_neg (fun hcon => hcon hresp), h1]
  dsimp only
  rw [h2]
  refine ⟨rfl, ?_, ?_⟩
  · intro hin
    have hin2 := (List.mem_filter.mp hin).1
    have := (List.mem_filter.mp hin2).2
    exact absurd (of_decide_eq_true this) (fun hco => hco rfl)
  · intro hin
    have := (List.mem_filter.mp hin).2
    exact absurd (of_decide_eq_true this) (fun hco => hco rfl)

/-- C1 (counterexample): at the exact source path of the claim the parsed
record has general_cancer = "site_1" (not "cancer_a") and gdc_id = "GDC123"
(not "site_1"): the code reads `split_vars[1]` and `split_vars[2]`, the
second and third slash-segments. -/
theorem c1_counterexample :
    parseSampleMetadata ("cancer_a/site_1/GDC123/TCGA-AB-1234-01Z.svs".toList) =
      Except.ok ⟨"site_1".toList, "GDC123".toList,
        "TCGA-AB-1234-01Z".toList, "TCGA-AB-1234".toList⟩ ∧
    "site_1".toList ≠ "cancer_a".toList ∧ "GDC123".toList ≠ "site_1".toList :=
  ⟨rfl, by decide, by decide⟩

/-- C1 (amended): for every path whose slash-split has a segment at index 3
and whose full specimen id (segment index 3 before its first dot) has at
least 3 hyphen parts, parsing succeeds and the record takes general_cancer
from segment index 1, gdc_id from segment index 2, and the full specimen id
from segment index 3 before its first dot. -/
theorem c1_parse_segments (p s1 s2 s3 : Str)
    (h1 : (splitOnChar '/' p).get? 1 = some s1)
    (h2 : (splitOnChar '/' p).get? 2 = some s2)
    (h3 : (splitOnChar '/' p).get? 3 = some s3)
    (hl : 3 ≤ (splitOnChar '-' ((splitOnChar '.' s3).headD [])).length) :
    ∃ md, parseSampleMetadata p = Except.ok md ∧
      md.general_cancer = s1 ∧ md.gdc_id = s2 ∧
      md.tcga_full_id = (splitOnChar '.' s3).headD [] := by
  have ht0 := @List.get?_eq_get Str
    (splitOnChar '-' ((splitOnChar '.' s3).headD [])) 0 (by omega)
  have ht1 := @List.get?_eq_get Str
    (splitOnChar '-' ((splitOnChar '.' s3).headD [])) 1 (by omega)
  have ht2 := @List.get?_eq_get Str
    (splitOnChar '-' ((splitOnChar '.' s3).headD [])) 2 (by omega)
  exact ⟨_, parse_ok p s1 s2 s3 _ _ _ h1 h2 h3 ht0 ht1 ht2, rfl, rfl, rfl⟩

/-- C1 witness: a concrete path with a leading extra segment, so that the
second, third and fourth segments carry the metadata. -/
theorem c1_parse_segments_witness :
    ∃ md, parseSampleMetadata ("d/ca/gdc/T-A-1.svs".toList) = Except.ok md ∧
      md.general_cancer = "ca".toList ∧ md.gdc_id = "gdc".toList ∧
      md.tcga_full_id = (splitOnChar '.' ("T-A-1.svs".toList)).headD [] :=
  c1_parse_segments _ _ _ _ rfl rfl rfl (by decide)

/-- C8: whenever the path has a segment at index 3 whose part before the
first dot splits on hyphens into tokens with indices 0, 1 and 2 present,
the parsed short id equals the first three hyphen tokens of the full
specimen id joined by hyphens. -/
theorem c8_short_id (p s3 t0 t1 t2 : Str)
    (h3 : (splitOnChar '/' p).get? 3 = some s3)
    (ht0 : (splitOnChar '-' ((splitOnChar '.' s3).headD [])).get? 0 = some t0)
    (ht1 : (splitOnChar '-' ((splitOnChar '.' s3).headD [])).get? 1 = some t1)
    (ht2 : (splitOnChar '-' ((splitOnChar '.' s3).headD [])).get? 2 = some t2) :
    ∃ md, parseSampleMetadata p = Except.ok md ∧
      md.tcga_full_id = (splitOnChar '.' s3).headD [] ∧
      md.tcga_id = List.intercalate ['-'] [t0, t1, t2] := by
  obtain ⟨hlen, -⟩ := List.get?_eq_some.mp h3
  have h1 := @List.get?_eq_get Str (splitOnChar '/' p) 1 (by omega)
  have h2 := @List.get?_eq_get Str (splitOnChar '/' p) 2 (by omega)
  refine ⟨_, parse_ok p _ _ s3 t0 t1 t2 h1 h2 h3 ht0 ht1 ht2, rfl, ?_⟩
  rw [intercalate_three]

/-- C8 witness: at a concrete path the short id is the three hyphen tokens
joined by hyphens. -/
theorem c8_short_id_witness :
    ∃ md, parseSampleMetadata ("d/ca/gdc/T-A-1.svs".toList) = Except.ok md ∧
      md.tcga_full_id = (splitOnChar '.' ("T-A-1.svs".toList)).headD [] ∧
      md.tcga_id = List.intercalate ['-'] [['T'], ['A'], ['1']] :=
  c8_short_id _ _ _ _ _ rfl rfl rfl rfl

/-- C2: when the reference lookup finds a matching row, the concepts list
is the general cancer label followed by one normalized entry per semicolon
token of the primary-site field, then the project-name field, then the
cancer-type field, in that order; the disease-type field contributes
nothing (the right-hand side does not mention it) and nothing is
de-duplicated (the list is exactly the concatenation of the token maps). -/
theorem c2_label_set_from_matched_row (fs : List Str) (img_location : Str)
    (md : SampleMetadata) (table : List (List Str)) (resp : UploadResponse) (pr : ProjectRec)
    (hmem : img_location ∈ fs)
    (hproj : get_project table md.tcga_id = Except.ok (some pr)) :
    (send_image fs img_location md table resp).concepts =
      Concept.mk md.general_cancer 1 ::
        ((splitOnChar ';' pr.primary_site).map (fun t => Concept.mk (truncNorm t) 1)
          ++ (splitOnChar ';' pr.project_name).map (fun t => Concept.mk (truncNorm t) 1)
          ++ (splitOnChar ';' pr.tcga_cancer_type).map (fun t => Concept.mk (truncNorm t) 1)) := by
  rw [send_image_ok hmem hproj, finishUpload_concepts]
  simp [buildConcepts]

/-- C2 witness: a concrete matched row with a two-token primary-site field. -/
theorem c2_label_set_from_matched_row_witness :
    (send_image [("i.png".toList)] ("i.png".toList) ⟨"gc".toList, [], [], ['K']⟩
        [[[], ("sA;sB".toList), [], ("dt".toList), ("pN".toList), [], [], ("ct".toList), ['K']]]
        ⟨SUCCESS, []⟩).concepts =
      Concept.mk ("gc".toList) 1 ::
        ((splitOnChar ';' ("sA;sB".toList)).map (fun t => Concept.mk (truncNorm t) 1)
          ++ (splitOnChar ';' ("pN".toList)).map (fun t => Concept.mk (truncNorm t) 1)
          ++ (splitOnChar ';' ("ct".toList)).map (fun t => Concept.mk (truncNorm t) 1)) :=
  c2_label_set_from_matched_row _ _ _ _ _ ⟨("sA;sB".toList), ("dt".toList), ("pN".toList), ("ct".toList)⟩
    (by decide) rfl

/-- C3: when every row of the reference table has a key field differing from
the short id, the lookup returns `None` (never raises), the concepts list is
exactly the general cancer label with confidence 1, and the run still
performs its single upload. -/
theorem c3_lookup_miss (fs : List Str) (img_location : Str) (md : SampleMetadata)
    (table : List (List Str)) (resp : UploadResponse)
    (hmem : img_location ∈ fs)
    (hrows : ∀ row ∈ table, ∃ k, row.get? 8 = some k ∧ k ≠ md.tcga_id) :
    get_project table md.tcga_id = Except.ok none ∧
    (send_image fs img_location md table resp).concepts = [Concept.mk md.general_cancer 1] ∧
    (send_image fs img_location md table resp).uploads = 1 := by
  have hmiss := get_project_miss table md.tcga_id hrows
  refine ⟨hmiss, ?_, ?_⟩
  · rw [send_image_ok hmem hmiss, finishUpload_concepts]
    rfl
  · rw [send_image_ok hmem hmiss, finishUpload_uploads]

/-- C3 witness: a one-row table whose key does not match. -/
theorem c3_lookup_miss_witness :
    get_project [[[], [], [], [], [], [], [], [], ['Z']]] ['K'] = Except.ok none ∧
    (send_image [("i.png".toList)] ("i.png".toList) ⟨"gc".toList, [], [], ['K']⟩
        [[[], [], [], [], [], [], [], [], ['Z']]] ⟨SUCCESS, []⟩).concepts =
      [Concept.mk ("gc".toList) 1] ∧
    (send_image [("i.png".toList)] ("i.png".toList) ⟨"gc".toList, [], [], ['K']⟩
        [[[], [], [], [], [], [], [], [], ['Z']]] ⟨SUCCESS, []⟩).uploads = 1 :=
  c3_lookup_miss [("i.png".toList)] ("i.png".toList) ⟨"gc".toList, [], [], ['K']⟩
    [[[], [], [], [], [], [], [], [], ['Z']]] ⟨SUCCESS, []⟩ (by decide)
    (by
      intro r hr
      rw [List.mem_singleton] at hr
      subst hr
      exact ⟨['Z'], rfl, by decide⟩)

/-- C4 (counterexample): the general-cancer label is placed in the concepts
list verbatim (line 73), so a token of 11 characters containing a space is
stored without the space-to-underscore replacement, contradicting the claim
for every label token. -/
theorem c4_counterexample :
    (send_image [("i.png".toList)] ("i.png".toList)
        ⟨"lung cancer".toList, [], [], ['K']⟩ [] ⟨SUCCESS, []⟩).concepts =
      [Concept.mk ("lung cancer".toList) 1] ∧
    ("lung cancer".toList).length ≤ 31 ∧
    replaceChar ' ' '_' ("lung cancer".toList) ≠ "lung cancer".toList :=
  ⟨rfl, by decide, by decide⟩

/-- C4 (amended): every label token coming from the reference row (the
semicolon tokens of the primary-site, project-name and cancer-type fields)
is stored as its first 31 characters when longer than 31, with each space
replaced by an underscore, and unchanged apart from that replacement when
at most 31 characters; the general cancer label itself is stored verbatim,
with no truncation and no replacement. -/
theorem c4_truncation_normalization (gc : Str) (pr : ProjectRec) :
    buildConcepts gc (some pr) =
      Concept.mk gc 1 ::
        ((splitOnChar ';' pr.primary_site ++ splitOnChar ';' pr.project_name
            ++ splitOnChar ';' pr.tcga_cancer_type).map
          (fun t => Concept.mk (replaceChar ' ' '_' (if 31 < t.length then t.take 31 else t)) 1)) := by
  simp [buildConcepts, truncNorm]

/-- C5: with an openable slide the scaler returns exactly the bilinear
resize, to floor-divided target dimensions, of the RGB conversion of the
full level-0 region; the saved image has dimensions
`(width / SCALE_FACTOR, height / SCALE_FACTOR)` and 3 channels. -/
theorem c5_scaled_dimensions (world : World) (p : Str) (sd : SlideData)
    (hopen : world.openResult p = Except.ok sd) :
    slide_to_scaled_pil_image world p =
      Except.ok (List.insert (outputPath p) world.files, outputPath p,
        Img.resize (Img.convertRGB (Img.region sd (0, 0) 0 sd.dimensions))
          (sd.width / SCALE_FACTOR, sd.height / SCALE_FACTOR) ResampleFilter.bilinear) ∧
    Img.dims (Img.resize (Img.convertRGB (Img.region sd (0, 0) 0 sd.dimensions))
        (sd.width / SCALE_FACTOR, sd.height / SCALE_FACTOR) ResampleFilter.bilinear) =
      (sd.width / SCALE_FACTOR, sd.height / SCALE_FACTOR) ∧
    Img.channels (Img.resize (Img.convertRGB (Img.region sd (0, 0) 0 sd.dimensions))
        (sd.width / SCALE_FACTOR, sd.height / SCALE_FACTOR) ResampleFilter.bilinear) = 3 :=
  ⟨scale_ok world p sd hopen, rfl, rfl⟩

/-- C5 witness: a 5000 by 2600 slide is scaled to 200 by 104. -/
theorem c5_scaled_dimensions_witness :
    ∃ r, slide_to_scaled_pil_image
        ⟨fun q => if q = ("a/b/c/T-A-1.svs".toList) then Except.ok ⟨5000, 2600, []⟩
                  else Except.error (LibErr.fileNotFoundError []),
         [("a/b/c/T-A-1.svs".toList)]⟩ ("a/b/c/T-A-1.svs".toList) = Except.ok r ∧
      Img.dims r.2.2 = (200, 104) ∧ Img.channels r.2.2 = 3 := by
  obtain ⟨h1, h2, h3⟩ := c5_scaled_dimensions
    ⟨fun q => if q = ("a/b/c/T-A-1.svs".toList) then Except.ok ⟨5000, 2600, []⟩
              else Except.error (LibErr.fileNotFoundError []),
     [("a/b/c/T-A-1.svs".toList)]⟩
    ("a/b/c/T-A-1.svs".toList) ⟨5000, 2600, []⟩ rfl
  exact ⟨_, h1, h2.trans rfl, h3⟩

/-- C6: when the upload response carries the success code, the run finishes
without an exception and afterwards neither the scaled output file nor the
derived source slide file exists. -/
theorem c6_success_deletes_files (world : World) (p : Str) (md : SampleMetadata)
    (table : List (List Str)) (resp : UploadResponse) (sd : SlideData) (pr : Option ProjectRec)
    (hmd : parseSampleMetadata p = Except.ok md)
    (hopen : world.openResult p = Except.ok sd)
    (hsvs : derivedSvsPath (outputPath p) ∈ world.files)
    (hproj : get_project table md.tcga_id = Except.ok pr)
    (hresp : resp.code = SUCCESS) :
    (runPipeline world p table resp).error = none ∧
    outputPath p ∉ (runPipeline world p table resp).files ∧
    derivedSvsPath (outputPath p) ∉ (runPipeline world p table resp).files := by
  have hscale := scale_ok world p sd hopen
  obtain ⟨hfiles, herr, -, -⟩ := runPipeline_send world p md table resp _ _ _ hmd hscale
  have hmem : outputPath p ∈ List.insert (outputPath p) world.files :=
    List.mem_insert_self _ _
  have hsvs1 : derivedSvsPath (outputPath p) ∈ List.insert (outputPath p) world.files :=
    List.mem_insert_iff.mpr (Or.inr hsvs)
  have hne : derivedSvsPath (outputPath p) ≠ outputPath p :=
    fun h => png_ne_svs ((splitExt p).1) ((splitExt (outputPath p)).1) h.symm
  have hsend := @send_image_ok (List.insert (outputPath p) world.files) (outputPath p)
    md table resp pr hmem hproj
  obtain ⟨he, hi, hs⟩ := finishUpload_success _ _ (buildConcepts md.general_cancer pr)
    resp hresp hmem hsvs1 hne
  refine ⟨?_, ?_, ?_⟩
  · rw [herr, hsend]
    exact he
  · rw [hfiles, hsend]
    exact hi
  · rw [hfiles, hsend]
    exact hs

/-- C6 witness: a successful run on a concrete world deletes both files. -/
theorem c6_success_deletes_files_witness :
    (runPipeline
        ⟨fun q => if q = ("a/b/c/T-A-1.svs".toList) then Except.ok ⟨100, 50, []⟩
                  else Except.error (LibErr.fileNotFoundError []),
         [("a/b/c/T-A-1.svs".toList)]⟩
        ("a/b/c/T-A-1.svs".toList) [] ⟨SUCCESS, []⟩).error = none ∧
    outputPath ("a/b/c/T-A-1.svs".toList) ∉
      (runPipeline
        ⟨fun q => if q = ("a/b/c/T-A-1.svs".toList) then Except.ok ⟨100, 50, []⟩
                  else Except.error (LibErr.fileNotFoundError []),
         [("a/b/c/T-A-1.svs".toList)]⟩
        ("a/b/c/T-A-1.svs".toList) [] ⟨SUCCESS, []⟩).files ∧
    derivedSvsPath (outputPath ("a/b/c/T-A-1.svs".toList)) ∉
      (runPipeline
        ⟨fun q => if q = ("a/b/c/T-A-1.svs".toList) then Except.ok ⟨100, 50, []⟩
                  else Except.error (LibErr.fileNotFoundError []),
         [("a/b/c/T-A-1.svs".toList)]⟩
        ("a/b/c/T-A-1.svs".toList) [] ⟨SUCCESS, []⟩).files :=
  c6_success_deletes_files _ _ ⟨"b".toList, "c".toList, "T-A-1".toList, "T-A-1".toList⟩
    _ _ ⟨100, 50, []⟩ none rfl rfl (by decide) rfl rfl

/-- C7: when the upload response carries any non-success code, the file
system is unchanged, the run raises an exception whose message carries the
response details, and exactly one upload was attempted (no retry). -/
theorem c7_failure_preserves_files (fs : List Str) (img_location : Str)
    (md : SampleMetadata) (table : List (List Str)) (resp : UploadResponse)
    (pr : Option ProjectRec)
    (hmem : img_location ∈ fs)
    (hproj : get_project table md.tcga_id = Except.ok pr)
    (hresp : resp.code ≠ SUCCESS) :
    (send_image fs img_location md table resp).files = fs ∧
    (send_image fs img_location md table resp).error = some (postFailMsg resp.details) ∧
    (send_image fs img_location md table resp).uploads = 1 := by
  rw [send_image_ok hmem hproj]
  unfold finishUpload
  rw [if_pos hresp]
  exact ⟨rfl, rfl, rfl⟩

/-- C7 witness: a failed upload with code 0 keeps the file and reports the
details. -/
theorem c7_failure_preserves_files_witness :
    (send_image [("i.png".toList)] ("i.png".toList) ⟨"gc".toList, [], [], ['K']⟩
        [] ⟨0, ("boom".toList)⟩).files = [("i.png".toList)] ∧
    (send_image [("i.png".toList)] ("i.png".toList) ⟨"gc".toList, [], [], ['K']⟩
        [] ⟨0, ("boom".toList)⟩).error = some (postFailMsg ("boom".toList)) ∧
    (send_image [("i.png".toList)] ("i.png".toList) ⟨"gc".toList, [], [], ['K']⟩
        [] ⟨0, ("boom".toList)⟩).uploads = 1 :=
  c7_failure_preserves_files _ _ _ _ _ none (by decide) rfl (by decide)

/-- C9: when opening the slide fails with either library error, the error
itself is not propagated: the handle is null, and the run terminates with
the fixed attribute fault of the dimension access, with the file system
unchanged, no upload attempted and no image produced — independently of
which library error occurred. -/
theorem c9_open_failure_fatal (world : World) (p : Str) (md : SampleMetadata)
    (table : List (List Str)) (resp : UploadResponse) (err : LibErr)
    (hmd : parseSampleMetadata p = Except.ok md)
    (hopen : world.openResult p = Except.error err) :
    tryOpenSlide world p = none ∧
    runPipeline world p table resp =
      ⟨world.files, [], 0, none, none, some attributeErrorMsg⟩ := by
  have h1 : tryOpenSlide world p = none := by
    unfold tryOpenSlide
    rw [hopen]
  have h2 : slide_to_scaled_pil_image world p = Except.error attributeErrorMsg := by
    unfold slide_to_scaled_pil_image
    rw [h1]
  refine ⟨h1, ?_⟩
  unfold runPipeline
  rw [hmd, h2]

/-- C9 witness: a world in which every open attempt raises a library error. -/
theorem c9_open_failure_fatal_witness :
    tryOpenSlide
      ⟨fun _ => Except.error (LibErr.openSlideError []), [("x".toList)]⟩
      ("d/ca/gdc/T-A-1.svs".toList) = none ∧
    runPipeline
      ⟨fun _ => Except.error (LibErr.openSlideError []), [("x".toList)]⟩
      ("d/ca/gdc/T-A-1.svs".toList) [] ⟨SUCCESS, []⟩ =
      ⟨[("x".toList)], [], 0, none, none, some attributeErrorMsg⟩ :=
  c9_open_failure_fatal _ _ ⟨"ca".toList, "gdc".toList, "T-A-1".toList, "T-A-1".toList⟩
    _ _ (LibErr.openSlideError []) rfl rfl

end ConvertSvsToPng
